import Mathlib

/-!
Shallow embedding of the ledger core of `budgets/abstract_models.py`
(django-oscar-accounts, budgets app), together with a spec-modelled
Account variant where the claims depend on `accounts/models.py`,
whose code is not in the source tree (only its unit tests are).

Modelling conventions:
* Monetary amounts are exact fixed-point decimals with two places; they
  are represented as integers in minor units (`Int`), which is exact.
* Dates are day numbers (`Int`); `today` is passed explicitly.
* A budget/account row is a structure of its fields; the ledger database
  is a `LedgerState` holding the committed transaction ids and the
  `BudgetTransaction` rows; `nextId` is the autoincrement primary key.
* Fallible operations return `Except`; the Django
  `transaction.commit_on_success` block either commits all rows or none,
  so `TransactionManager.create` returns the new state only on success.
-/

/-- Row of the `Budget` model (`budgets/abstract_models.py`, lines 19-95). -/
structure Budget where
  id : Nat
  code : Option String
  status : String
  credit_limit : Option Int
  start_date : Option Int
  end_date : Option Int
deriving DecidableEq, Repr

def Budget.OPEN : String := "Open"

def Budget.CLOSED : String := "Closed"

/-- Row of the `BudgetTransaction` model (lines 190-212): one ledger entry. -/
structure BudgetTransaction where
  transaction : Nat
  budget : Nat
  amount : Int
deriving DecidableEq, Repr

/-- The ledger tables: committed `Transaction` row ids, the
`BudgetTransaction` rows, and the next fresh transaction id. -/
structure LedgerState where
  transactions : List Nat
  budget_transactions : List BudgetTransaction
  nextId : Nat
deriving DecidableEq, Repr

/-- `Budget.is_active` (lines 66-74): four-way rule over the optional dates. -/
def Budget.is_active (b : Budget) (today : Int) : Bool :=
  match b.start_date, b.end_date with
  | none, none => true
  | some s, none => decide (today ≥ s)
  | none, some e => decide (today < e)
  | some s, some e => decide (s ≤ today) && decide (today < e)

/-- `Budget.balance` (lines 76-79): `Sum` aggregate over the entries of the budget;
the aggregate is None (and the result the zero decimal) exactly when
the budget has no entries. -/
def Budget.balance (b : Budget) (st : LedgerState) : Int :=
  let es := st.budget_transactions.filter (fun e => e.budget == b.id)
  if es.isEmpty then 0 else (es.map (fun e => e.amount)).sum

/-- `Budget.is_debit_permitted` (lines 84-88). -/
def Budget.is_debit_permitted (b : Budget) (st : LedgerState) (amount : Int) : Bool :=
  match b.credit_limit with
  | none => true
  | some cl => decide (amount ≤ b.balance st + cl)

/-- `Budget.is_open` (lines 90-91). -/
def Budget.is_open (b : Budget) : Bool := b.status == Budget.OPEN

/-- `Budget.close` (lines 93-95): sets status to Closed and saves.
There is no balance check in this method. -/
def Budget.close (b : Budget) : Budget := { b with status := Budget.CLOSED }

/-- `Budget` defines no `save` override (Django `Model.save` persists the
fields as they are), so saving stores the row unchanged. -/
def Budget.save (b : Budget) : Budget := b

/-- The exceptions raised by `verify_transaction` (`budgets/exceptions`);
`InactiveBudget` and `ClosedBudget` are raised with distinct messages for
the source and destination sides, recorded here as a Boolean (`true` =
source side); the message of `InsufficientBudget` carries the source id. -/
inductive BudgetException where
  | InvalidAmount
  | InactiveBudget (sourceSide : Bool)
  | ClosedBudget (sourceSide : Bool)
  | InsufficientBudget (id : Nat)
deriving DecidableEq, Repr

/-- `TransactionManager.verify_transaction` (lines 121-139): the
precondition chain, first failure wins. -/
def TransactionManager.verify_transaction (st : LedgerState) (today : Int)
    (source destination : Budget) (amount : Int) : Except BudgetException Unit :=
  if amount ≤ 0 then .error .InvalidAmount
  else if !source.is_active today then .error (.InactiveBudget true)
  else if !destination.is_active today then .error (.InactiveBudget false)
  else if !source.is_open then .error (.ClosedBudget true)
  else if !destination.is_open then .error (.ClosedBudget false)
  else if !source.is_debit_permitted st amount then .error (.InsufficientBudget source.id)
  else .ok ()

/-- A failed `create`: either a `verify_transaction` exception (raised
before the write), or the database rejecting the atomic write because the
unique-together (transaction, budget) constraint (line 208) would
be violated, rolling the whole block back. -/
inductive CreateError where
  | verification (e : BudgetException)
  | integrityError
deriving DecidableEq, Repr

/-- Whether a list of rows violates the unique-together constraint on
the (transaction, budget) pair: two rows share the same key. -/
def hasDupKey : List BudgetTransaction → Bool
  | [] => false
  | e :: rest =>
      rest.any (fun f => e.transaction == f.transaction && e.budget == f.budget)
        || hasDupKey rest

/-- `TransactionManager.create` (lines 100-114): verify, then atomically
write one `Transaction` row and the two entries (debit `-amount` on the
source, credit `+amount` on the destination); on success returns the new
state and the new transaction id. -/
def TransactionManager.create (st : LedgerState) (today : Int)
    (source destination : Budget) (amount : Int) :
    Except CreateError (LedgerState × Nat) :=
  match TransactionManager.verify_transaction st today source destination amount with
  | .error e => .error (.verification e)
  | .ok _ =>
    let txn := st.nextId
    let rows := st.budget_transactions ++
      [⟨txn, source.id, -amount⟩, ⟨txn, destination.id, amount⟩]
    if hasDupKey rows then .error .integrityError
    else .ok ({ transactions := st.transactions ++ [txn],
                budget_transactions := rows,
                nextId := txn + 1 }, txn)

/-- `create` as a state transformer: on any error the exception
propagates out of the manager before/instead of the commit, so the
database state is returned unchanged. -/
def TransactionManager.createRun (st : LedgerState) (today : Int)
    (source destination : Budget) (amount : Int) :
    LedgerState × Except CreateError Nat :=
  match TransactionManager.create st today source destination amount with
  | .ok (st2, t) => (st2, .ok t)
  | .error e => (st, .error e)

/-- The error of `Transaction.delete` / `BudgetTransaction.delete`:
RuntimeError, message: Transaction cannot be deleted. -/
inductive DeleteError where
  | runtimeError
deriving DecidableEq, Repr

/-- `Transaction.delete` (lines 174-175): unconditionally raises; the
database state is untouched. -/
def Transaction.delete (st : LedgerState) (_t : Nat) :
    LedgerState × Except DeleteError Unit :=
  (st, .error .runtimeError)

/-- `BudgetTransaction.delete` (lines 211-212): unconditionally raises;
the database state is untouched. -/
def BudgetTransaction.delete (st : LedgerState) (_e : BudgetTransaction) :
    LedgerState × Except DeleteError Unit :=
  (st, .error .runtimeError)

/-- Signed sum of the entries of one transaction. -/
def LedgerState.txnSum (st : LedgerState) (t : Nat) : Int :=
  ((st.budget_transactions.filter (fun e => e.transaction == t)).map
    (fun e => e.amount)).sum

/-- Well-formedness of the autoincrement key: the transaction id
of every stored row is below the next fresh id. -/
def LedgerState.WF (st : LedgerState) : Prop :=
  (∀ e ∈ st.budget_transactions, e.transaction < st.nextId) ∧
  (∀ t ∈ st.transactions, t < st.nextId)

/-- Double-entry invariant: the entries of every committed transaction sum to 0. -/
def LedgerState.Balanced (st : LedgerState) : Prop :=
  ∀ t ∈ st.transactions, st.txnSum t = 0

/-- `AccountNotEmpty` of `accounts/exceptions` (raised per
`tests/unit/model_tests.py`, `TestAnAccountWithFunds.test_cannot_be_closed`). -/
inductive AccountException where
  | AccountNotEmpty
deriving DecidableEq, Repr

/-- Modelled from the spec: the `Account` model of `accounts/models.py` is
not in the source tree (only its unit tests are). Per the spec, Account is
the strict variant of Budget with a status in Open/Frozen/Closed and a
denormalized `balance` field kept consistent with the entry sum. -/
structure Account where
  code : Option String
  status : String
  balance : Int
  credit_limit : Option Int
  start_date : Option Int
  end_date : Option Int
deriving DecidableEq, Repr

def Account.OPEN : String := "Open"

def Account.CLOSED : String := "Closed"

/-- Modelled from the spec: `close(account)` is "allowed only if current
balance equals exactly zero; attempting to close with nonzero balance
fails with a NotEmpty error and the state is unchanged" — matching the
repository test `TestAnAccountWithFunds.test_cannot_be_closed`. -/
def Account.close (a : Account) : Except AccountException Account :=
  if a.balance ≠ 0 then .error .AccountNotEmpty
  else .ok { a with status := Account.CLOSED }

/-- Uppercase normalization of a code string (Python `str.upper`;
account codes are ASCII alphanumeric, where the two agree). -/
def strUpper (s : String) : String := ⟨s.data.map Char.toUpper⟩

/-- Modelled from the spec: "Account code is always stored uppercase" —
matching the repository test `test_always_saves_the_code_as_uppercase`;
`save` normalizes the code to uppercase, leaving other fields unchanged. -/
def Account.save (a : Account) : Account :=
  { a with code := a.code.map strUpper }

/-- An empty ledger. -/
def stW : LedgerState := ⟨[], [], 0⟩

/-- A concrete open, always-active budget with unlimited credit. -/
def srcW : Budget := ⟨0, none, "Open", none, none, none⟩

/-- A concrete open, always-active budget with the default zero credit limit. -/
def dstW : Budget := ⟨1, none, "Open", some 0, none, none⟩

/-- The ledger after transferring 20 from `srcW` to `dstW`. -/
def st2W : LedgerState := ⟨[0], [⟨0, 0, -20⟩, ⟨0, 1, 20⟩], 1⟩

/-- The ledger after additionally transferring 20 back from `dstW` to `srcW`. -/
def st3W : LedgerState :=
  ⟨[0, 1], [⟨0, 0, -20⟩, ⟨0, 1, 20⟩, ⟨1, 1, -20⟩, ⟨1, 0, 20⟩], 2⟩

/-- A concrete open budget holding funds (balance 100). -/
def bFunds : Budget := ⟨7, none, "Open", some 0, none, none⟩

/-- A ledger in which budget 7 holds 100 (funded from budget 3). -/
def stFunds : LedgerState := ⟨[0], [⟨0, 7, 100⟩, ⟨0, 3, -100⟩], 1⟩

/-- A concrete Account holding funds (denormalized balance 100). -/
def aFunds : Account := ⟨none, "Open", 100, some 0, none, none⟩

/-- A concrete budget whose activity window ends on day 0. -/
def bEndToday : Budget := ⟨2, none, "Open", some 0, none, some 0⟩

/-- A concrete budget created with a lowercase code. -/
def bCode : Budget := ⟨3, some ("abc123"), "Open", some 0, none, none⟩

/-- The `isEmpty` branch of `balance` collapses: the balance is always the
sum of the signed amounts of the entries of the budget. -/
theorem balance_eq_sum (b : Budget) (st : LedgerState) :
    b.balance st =
      ((st.budget_transactions.filter (fun e => e.budget == b.id)).map
        (fun e => e.amount)).sum := by
  unfold Budget.balance
  cases h : st.budget_transactions.filter (fun e => e.budget == b.id) with
  | nil => simp
  | cons a l => simp [h]

/-- Anatomy of a successful `create`. -/
theorem create_ok_spec {st : LedgerState} {today : Int}
    {source destination : Budget} {amount : Int} {st2 : LedgerState} {tid : Nat}
    (h : TransactionManager.create st today source destination amount = .ok (st2, tid)) :
    tid = st.nextId ∧
    st2.transactions = st.transactions ++ [st.nextId] ∧
    st2.budget_transactions = st.budget_transactions ++
      [⟨st.nextId, source.id, -amount⟩, ⟨st.nextId, destination.id, amount⟩] ∧
    st2.nextId = st.nextId + 1 ∧
    hasDupKey (st.budget_transactions ++
      [⟨st.nextId, source.id, -amount⟩, ⟨st.nextId, destination.id, amount⟩]) = false ∧
    TransactionManager.verify_transaction st today source destination amount = .ok () := by
  unfold TransactionManager.create at h
  cases hv : TransactionManager.verify_transaction st today source destination amount with
  | error e => rw [hv] at h; simp at h
  | ok u =>
    rw [hv] at h
    simp only at h
    split at h
    · simp at h
    · simp_all
      obtain ⟨h1, h2⟩ := h
      cases h1
      simp_all

theorem filter_txn_eq_nil_of_lt (l : List BudgetTransaction) (n : Nat)
    (h : ∀ e ∈ l, e.transaction < n) :
    l.filter (fun e => e.transaction == n) = [] := by
  induction l with
  | nil => rfl
  | cons a t ih =>
    have ha : a.transaction ≠ n := Nat.ne_of_lt (h a (by simp))
    simp only [List.filter_cons]
    rw [if_neg (by simp [ha])]
    exact ih (fun e he => h e (by simp [he]))

theorem hasDupKey_append_pair (l : List BudgetTransaction)
    (a b : BudgetTransaction)
    (h : hasDupKey (l ++ [a, b]) = false) :
    ¬(a.transaction = b.transaction ∧ a.budget = b.budget) := by
  induction l with
  | nil =>
    simp [hasDupKey] at h
    rintro ⟨h1, h2⟩
    exact h h1 h2
  | cons x t ih =>
    simp only [List.cons_append, hasDupKey, Bool.or_eq_false_iff] at h
    exact ih h.2

/-- Entries of an appended batch restricted to one transaction id. -/
theorem txnSum_append (st : LedgerState) (extra : List BudgetTransaction)
    (tr : List Nat) (n : Nat) (t : Nat) :
    LedgerState.txnSum ⟨tr, st.budget_transactions ++ extra, n⟩ t =
      st.txnSum t +
        ((extra.filter (fun e => e.transaction == t)).map (fun e => e.amount)).sum := by
  unfold LedgerState.txnSum
  simp [List.filter_append]

/-- C1: every successful transfer appends exactly one committed
transaction id; the entries carrying that id are exactly the debit of
`-amount` on the source and the credit of `+amount` on the destination;
their signed sum is 0; and the double-entry invariant (every committed
entries of every committed
transaction sum to 0) is preserved. -/
theorem create_double_entry (st : LedgerState) (today : Int)
    (source destination : Budget) (amount : Int) (st2 : LedgerState) (tid : Nat)
    (hwf : st.WF)
    (h : TransactionManager.create st today source destination amount = .ok (st2, tid)) :
    st2.transactions = st.transactions ++ [tid] ∧
    st2.budget_transactions.filter (fun e => e.transaction == tid) =
      [⟨tid, source.id, -amount⟩, ⟨tid, destination.id, amount⟩] ∧
    st2.txnSum tid = 0 ∧
    (st.Balanced → st2.Balanced) := by
  obtain ⟨htid, htr, hbt, hnext, hdup, hver⟩ := create_ok_spec h
  subst htid
  have hfilter : st2.budget_transactions.filter (fun e => e.transaction == st.nextId) =
      [⟨st.nextId, source.id, -amount⟩, ⟨st.nextId, destination.id, amount⟩] := by
    rw [hbt, List.filter_append, filter_txn_eq_nil_of_lt _ _ hwf.1]
    simp [List.filter]
  refine ⟨htr, hfilter, ?_, ?_⟩
  · unfold LedgerState.txnSum
    rw [hfilter]
    simp
  · intro hb t ht
    rw [htr] at ht
    rcases List.mem_append.mp ht with hold | hnew
    · have htlt : t < st.nextId := hwf.2 t hold
      have hne : (st.nextId == t) = false := by
        simp [Nat.ne_of_gt htlt]
      have hsum : st2.txnSum t = st.txnSum t := by
        unfold LedgerState.txnSum
        rw [hbt, List.filter_append]
        simp [List.filter, hne]
      rw [hsum]
      exact hb t hold
    · have ht2 : t = st.nextId := by simpa using hnew
      subst ht2
      unfold LedgerState.txnSum
      rw [hfilter]
      simp

theorem create_double_entry_witness :
    st2W.transactions = stW.transactions ++ [0] ∧
    st2W.budget_transactions.filter (fun e => e.transaction == 0) =
      [⟨0, srcW.id, -20⟩, ⟨0, dstW.id, 20⟩] ∧
    st2W.txnSum 0 = 0 ∧
    (stW.Balanced → st2W.Balanced) :=
  create_double_entry stW 0 srcW dstW 20 st2W 0
    (by unfold LedgerState.WF; decide) rfl

/-- C2: `verify_transaction` checks its preconditions in the fixed order
amount, source active, destination active, source open, destination open,
debit permitted — first failure wins — and whenever any check fails the
exception propagates out of `create` with the ledger state unchanged, so
no transaction and no entries are written. -/
theorem verify_transaction_order (st : LedgerState) (today : Int)
    (source destination : Budget) (amount : Int) :
    (TransactionManager.verify_transaction st today source destination amount =
        .error .InvalidAmount ↔ amount ≤ 0) ∧
    (TransactionManager.verify_transaction st today source destination amount =
        .error (.InactiveBudget true) ↔
      0 < amount ∧ source.is_active today = false) ∧
    (TransactionManager.verify_transaction st today source destination amount =
        .error (.InactiveBudget false) ↔
      0 < amount ∧ source.is_active today = true ∧
        destination.is_active today = false) ∧
    (TransactionManager.verify_transaction st today source destination amount =
        .error (.ClosedBudget true) ↔
      0 < amount ∧ source.is_active today = true ∧
        destination.is_active today = true ∧ source.is_open = false) ∧
    (TransactionManager.verify_transaction st today source destination amount =
        .error (.ClosedBudget false) ↔
      0 < amount ∧ source.is_active today = true ∧
        destination.is_active today = true ∧ source.is_open = true ∧
        destination.is_open = false) ∧
    (TransactionManager.verify_transaction st today source destination amount =
        .error (.InsufficientBudget source.id) ↔
      0 < amount ∧ source.is_active today = true ∧
        destination.is_active today = true ∧ source.is_open = true ∧
        destination.is_open = true ∧
        source.is_debit_permitted st amount = false) ∧
    (TransactionManager.verify_transaction st today source destination amount =
        .ok () ↔
      0 < amount ∧ source.is_active today = true ∧
        destination.is_active today = true ∧ source.is_open = true ∧
        destination.is_open = true ∧
        source.is_debit_permitted st amount = true) ∧
    (∀ e, TransactionManager.verify_transaction st today source destination amount =
        .error e →
      TransactionManager.createRun st today source destination amount =
        (st, .error (.verification e))) := by
  have hrun : ∀ e,
      TransactionManager.verify_transaction st today source destination amount =
        .error e →
      TransactionManager.createRun st today source destination amount =
        (st, .error (.verification e)) := by
    intro e he
    unfold TransactionManager.createRun TransactionManager.create
    rw [he]
  refine ⟨?_, ?_, ?_, ?_, ?_, ?_, ?_, hrun⟩ <;>
  · unfold TransactionManager.verify_transaction
    split_ifs with h1 h2 h3 h4 h5 h6 <;>
    simp_all [not_le]

theorem verify_transaction_order_witness :
    TransactionManager.createRun stW 0 srcW dstW (-5) =
      (stW, .error (.verification .InvalidAmount)) :=
  (verify_transaction_order stW 0 srcW dstW (-5)).2.2.2.2.2.2.2 .InvalidAmount rfl

/-- C3 counterexample: the `Budget.close` of the source sets the status to
Closed on a budget whose balance is 100, raising no error: the claim that
closing with a nonzero balance fails and leaves the status unchanged is
false for the Budget variant. -/
theorem budget_close_nonzero_counterexample :
    bFunds.balance stFunds = 100 ∧ bFunds.balance stFunds ≠ 0 ∧
    (Budget.close bFunds).status = Budget.CLOSED ∧
    bFunds.status ≠ Budget.CLOSED := by decide

/-- C3 (amended): the in-source `Budget.close` performs no balance check
and always sets the status to Closed, while the Account variant (modelled
from the spec, matching `TestAnAccountWithFunds.test_cannot_be_closed`)
closes only when the balance is exactly 0 and otherwise fails with
`AccountNotEmpty`, leaving the account unchanged. -/
theorem close_only_when_empty (b : Budget) (a : Account) :
    (Budget.close b).status = Budget.CLOSED ∧
    (a.balance ≠ 0 → Account.close a = .error .AccountNotEmpty) ∧
    (a.balance = 0 → Account.close a = .ok { a with status := Account.CLOSED }) := by
  refine ⟨rfl, ?_, ?_⟩ <;> intro h <;> simp [Account.close, h]

theorem close_only_when_empty_witness :
    Account.close aFunds = .error .AccountNotEmpty :=
  (close_only_when_empty bFunds aFunds).2.1 (by decide)

/-- C4: `is_debit_permitted` holds iff the credit limit is null or the
amount is at most balance plus credit limit; with the default zero limit a
debit is permitted iff the amount is at most the balance, and with a null
limit every amount is permitted. -/
theorem is_debit_permitted_spec (st : LedgerState) (b : Budget) (amount : Int) :
    (b.is_debit_permitted st amount = true ↔
      b.credit_limit = none ∨
        ∃ cl, b.credit_limit = some cl ∧ amount ≤ b.balance st + cl) ∧
    (b.credit_limit = some 0 →
      (b.is_debit_permitted st amount = true ↔ amount ≤ b.balance st)) ∧
    (b.credit_limit = none → b.is_debit_permitted st amount = true) := by
  unfold Budget.is_debit_permitted
  rcases h : b.credit_limit with _ | cl <;> simp [h]
  rintro rfl
  simp

theorem is_debit_permitted_spec_witness :
    dstW.is_debit_permitted stW 0 = true :=
  ((is_debit_permitted_spec stW dstW 0).2.1 rfl).mpr (by decide)

/-- C5: `balance` equals the sum of the signed amounts of the ledger
entries referencing the budget, and is exactly 0 when there are none; it
is a pure function of the ledger state. -/
theorem balance_is_entry_sum (b : Budget) (st : LedgerState) :
    b.balance st =
      ((st.budget_transactions.filter (fun e => e.budget == b.id)).map
        (fun e => e.amount)).sum ∧
    (st.budget_transactions.filter (fun e => e.budget == b.id) = [] →
      b.balance st = 0) := by
  refine ⟨balance_eq_sum b st, ?_⟩
  intro h
  rw [balance_eq_sum b st, h]
  rfl

theorem balance_is_entry_sum_witness : srcW.balance stW = 0 :=
  (balance_is_entry_sum srcW stW).2 rfl

/-- C6: the four-way `is_active` rule over the optional dates, with the
end date exclusive: a budget whose end date is today is not active. -/
theorem is_active_four_way (b : Budget) (today : Int) :
    (b.start_date = none → b.end_date = none → b.is_active today = true) ∧
    (∀ s, b.start_date = some s → b.end_date = none →
      (b.is_active today = true ↔ s ≤ today)) ∧
    (∀ e, b.start_date = none → b.end_date = some e →
      (b.is_active today = true ↔ today < e)) ∧
    (∀ s e, b.start_date = some s → b.end_date = some e →
      (b.is_active today = true ↔ s ≤ today ∧ today < e)) ∧
    (b.end_date = some today → b.is_active today = false) := by
  unfold Budget.is_active
  rcases hs : b.start_date with _ | s <;> rcases he : b.end_date with _ | e <;>
    simp [hs, he, ge_iff_le] <;> omega

theorem is_active_four_way_witness : bEndToday.is_active 0 = false :=
  (is_active_four_way bEndToday 0).2.2.2.2 rfl

/-- The four entries written by a transfer and its reversal contribute a
net 0 to the entry sum of any budget. -/
theorem four_rows_net_zero (n1 n2 aid bid q : Nat) (X : Int) :
    ((([⟨n1, aid, -X⟩, ⟨n1, bid, X⟩, ⟨n2, bid, -X⟩, ⟨n2, aid, X⟩] :
      List BudgetTransaction).filter (fun e => e.budget == q)).map
        (fun e => e.amount)).sum = 0 := by
  cases h1 : (aid == q) <;> cases h2 : (bid == q) <;>
    simp [List.filter, h1, h2]

/-- C7: if a transfer of X from A to B succeeds and the reversing
transfer of X from B to A also succeeds, both balances return to their
values before the first transfer. -/
theorem transfer_then_reverse (st1 : LedgerState) (today : Int) (A B : Budget)
    (X : Int) (st2 st3 : LedgerState) (t1 t2 : Nat)
    (h1 : TransactionManager.create st1 today A B X = .ok (st2, t1))
    (h2 : TransactionManager.create st2 today B A X = .ok (st3, t2)) :
    A.balance st3 = A.balance st1 ∧ B.balance st3 = B.balance st1 := by
  obtain ⟨-, -, hbt1, -, -, -⟩ := create_ok_spec h1
  obtain ⟨-, -, hbt2, -, -, -⟩ := create_ok_spec h2
  rw [hbt1] at hbt2
  constructor <;>
  · rw [balance_eq_sum, balance_eq_sum, hbt2, List.append_assoc]
    simp only [List.cons_append, List.nil_append]
    rw [List.filter_append, List.map_append, List.sum_append,
      four_rows_net_zero, add_zero]

theorem transfer_then_reverse_witness :
    srcW.balance st3W = srcW.balance stW ∧ dstW.balance st3W = dstW.balance stW :=
  transfer_then_reverse stW 0 srcW dstW 20 st2W st3W 0 1 rfl rfl

/-- C8: deleting a `Transaction` or a ledger entry always raises
`RuntimeError` and leaves the database state untouched. -/
theorem ledger_rows_cannot_be_deleted (st : LedgerState) (t : Nat)
    (e : BudgetTransaction) :
    Transaction.delete st t = (st, .error .runtimeError) ∧
    BudgetTransaction.delete st e = (st, .error .runtimeError) ∧
    (Transaction.delete st t).1 = st ∧
    (BudgetTransaction.delete st e).1 = st :=
  ⟨rfl, rfl, rfl, rfl⟩

/-- C9 counterexample: the Budget variant stores the code exactly as
supplied — saving the code "abc123" stores "abc123", not its uppercase
normalization "ABC123". -/
theorem budget_save_code_counterexample :
    (Budget.save bCode).code = some ("abc123") ∧
    (Budget.save bCode).code ≠ some (strUpper ("abc123")) ∧
    strUpper ("abc123") = "ABC123" := by decide

/-- C9 (amended): the Account variant (modelled from the spec, matching
`test_always_saves_the_code_as_uppercase`) stores the uppercase
normalization of the code on save; the in-source Budget variant has no
save override and stores the code unchanged. -/
theorem save_code_normalization (a : Account) (b : Budget) :
    (Account.save a).code = a.code.map strUpper ∧
    (Budget.save b).code = b.code :=
  ⟨rfl, rfl⟩

/-- C10: the unique-together constraint on (transaction, budget) makes a
two entries of a committed transaction reference distinct budgets, so a
self-transfer can never commit, even though `verify_transaction` itself
accepts a source equal to the destination. -/
theorem committed_entries_distinct_budgets (st : LedgerState) (today : Int)
    (source destination : Budget) (amount : Int) (st2 : LedgerState) (tid : Nat)
    (h : TransactionManager.create st today source destination amount = .ok (st2, tid)) :
    source.id ≠ destination.id ∧
    (∀ (s : Budget) (amt : Int), 0 < amt → s.is_active today = true →
      s.is_open = true → s.is_debit_permitted st amt = true →
      TransactionManager.verify_transaction st today s s amt = .ok ()) := by
  obtain ⟨-, -, -, -, hdup, -⟩ := create_ok_spec h
  constructor
  · intro heq
    exact hasDupKey_append_pair _ _ _ hdup ⟨rfl, heq⟩
  · intro s amt ha h2 h3 h4
    unfold TransactionManager.verify_transaction
    rw [if_neg (by omega), if_neg (by simp [h2]), if_neg (by simp [h2]),
      if_neg (by simp [h3]), if_neg (by simp [h3]), if_neg (by simp [h4])]

theorem committed_entries_distinct_budgets_witness :
    srcW.id ≠ dstW.id :=
  (committed_entries_distinct_budgets stW 0 srcW dstW 20 st2W 0 rfl).1
